import Mathlib

/-!
Shallow embedding of the SkySkills fishing core
(`src/fishing/hypixel_api.py`, `src/fishing/calculators.py`,
`src/fishing/stats_calculator.py`) and proofs about it.

Python `dict`/JSON values are modelled by the inductive `Json`; Python
numbers (int and float alike) are modelled by `ℚ`; fallible Python code
(code that can raise) is modelled in the `Except` monad with an explicit
runtime-error type `PyErr`.
-/

namespace SkySkills

/-- A JSON / Python value as it appears in a parsed Hypixel payload. -/
inductive Json where
  | null
  | bool (b : Bool)
  | num (q : ℚ)
  | str (s : String)
  | arr (xs : List Json)
  | obj (kvs : List (String × Json))
deriving Repr

/-- Python runtime errors that the embedded code can raise. -/
inductive PyErr where
  | attributeError
  | typeError
  | keyError
deriving DecidableEq, Repr

/-- Python `int(q)` on a number: truncation toward zero. -/
def pyInt (q : ℚ) : Int := if 0 ≤ q then ⌊q⌋ else ⌈q⌉

/-- Model of `HypixelAPIClient._xp_to_level` (src/fishing/hypixel_api.py:242-270):
the flat-threshold table, with the final `int(xp / 5000)` fallback. -/
def xpToLevel (xp : ℚ) : Int :=
  if 55172425 ≤ xp then 50
  else if 27652625 ≤ xp then 45
  else if 13512625 ≤ xp then 40
  else if 6452625 ≤ xp then 35
  else if 2982625 ≤ xp then 30
  else if 1332625 ≤ xp then 25
  else if 572625 ≤ xp then 20
  else if 232625 ≤ xp then 15
  else if 87625 ≤ xp then 10
  else if 27625 ≤ xp then 5
  else pyInt (xp / 5000)

/-! ## Python-operation semantics on `Json` values -/

/-- Python truthiness (`if x:`) of a JSON value. -/
def pyTruthy : Json → Bool
  | .null => false
  | .bool b => b
  | .num q => decide (q ≠ 0)
  | .str s => decide (s ≠ "")
  | .arr xs => !xs.isEmpty
  | .obj kvs => !kvs.isEmpty

/-- First-match association-list lookup (Python dict lookup). -/
def lookupKey (kvs : List (String × Json)) (k : String) : Option Json :=
  match kvs with
  | [] => none
  | (k', v) :: t => if k' = k then some v else lookupKey t k

/-- Python `x.get(k, dflt)`: only dicts have `.get`; on any other value it
raises `AttributeError`. -/
def dictGet (j : Json) (k : String) (dflt : Json) : Except PyErr Json :=
  match j with
  | .obj kvs => .ok ((lookupKey kvs k).getD dflt)
  | _ => .error .attributeError

/-- Does the character list `hay` start with `pat`? -/
def charsHavePrefix : List Char → List Char → Bool
  | _, [] => true
  | [], _ :: _ => false
  | h :: t, p :: ps => h = p && charsHavePrefix t ps

/-- Does `pat` occur as a contiguous sublist of `hay`? -/
def charsContain (hay pat : List Char) : Bool :=
  match hay with
  | [] => pat.isEmpty
  | _ :: t => charsHavePrefix hay pat || charsContain t pat

/-- Python `sub in s` on strings: substring containment. -/
def strContainsSub (s sub : String) : Bool := charsContain s.data sub.data

/-- Python `k in x` with a string needle: key membership for dicts,
substring containment for strings, element membership for lists, and a
`TypeError` for non-container values. -/
def pyContains (j : Json) (k : String) : Except PyErr Bool :=
  match j with
  | .obj kvs => .ok (kvs.any (fun kv => kv.1 = k))
  | .str s => .ok (strContainsSub s k)
  | .arr xs => .ok (xs.any (fun x => match x with | .str s => s = k | _ => false))
  | _ => .error .typeError

/-- Python `x[k]` with a string key: dict indexing; any other receiver
raises `TypeError` (string/list indices must be integers). -/
def pySubscript (j : Json) (k : String) : Except PyErr Json :=
  match j with
  | .obj kvs =>
    match lookupKey kvs k with
    | some v => .ok v
    | none => .error .keyError
  | _ => .error .typeError

/-- Python `x.items()`: only dicts have `.items`. -/
def pyItems (j : Json) : Except PyErr (List (String × Json)) :=
  match j with
  | .obj kvs => .ok kvs
  | _ => .error .attributeError

/-- Python `uuid.replace('-', '')`: drop every hyphen. -/
def stripHyphens (s : String) : String := ⟨s.data.filter (fun c => c ≠ '-')⟩

/-- Python `s.lower()`, character by character. -/
def strLower (s : String) : String := ⟨s.data.map Char.toLower⟩

/-! ## The profile extractor (`extract_fishing_stats`) -/

/-- The resolver `_xp_to_level` applied to an arbitrary extracted value, as Python
would: numbers (and bools, which are ints in Python) are compared against
the thresholds; any other value makes `xp >= 55172425` raise `TypeError`. -/
def xpToLevelJson : Json → Except PyErr Int
  | .num q => .ok (xpToLevel q)
  | .bool b => .ok (xpToLevel (if b then 1 else 0))
  | _ => .error .typeError

/-- The experience-path fallback chain of `extract_fishing_stats`
(src/fishing/hypixel_api.py:196-209): Path 1 `leveling.experience`,
Path 2 `player_data.experience` (only when the current value is falsy),
Path 3 the flat `experience_skill_fishing` key (only when still falsy). -/
def resolveFishingXp (member : Json) : Except PyErr Json := do
  let c1 ← pyContains member "leveling"
  let xp1 ←
    if c1 then do
      let lv ← pySubscript member "leveling"
      let c2 ← pyContains lv "experience"
      if c2 then do
        let lv' ← pySubscript member "leveling"
        let ex ← pySubscript lv' "experience"
        dictGet ex "SKILL_FISHING" (.num 0)
      else pure (Json.num 0)
    else pure (Json.num 0)
  let xp2 ←
    if !pyTruthy xp1 then do
      let c3 ← pyContains member "player_data"
      if c3 then do
        let pd ← pySubscript member "player_data"
        let c4 ← pyContains pd "experience"
        if c4 then do
          let pd' ← pySubscript member "player_data"
          let ex ← pySubscript pd' "experience"
          dictGet ex "SKILL_FISHING" (.num 0)
        else pure xp1
      else pure xp1
    else pure xp1
  if !pyTruthy xp2 then dictGet member "experience_skill_fishing" (.num 0)
  else pure xp2

/-- The normalized record returned by `extract_fishing_stats`. -/
structure FishingStats where
  fishing_level : Int
  fishing_xp : Json
  trophy_fish : Json
  sea_creature_kills : Json
  equipment : Json
  wardrobe : Json
  profile_id : Json
  cute_name : Json
  last_save : Json
deriving Repr

/-- The bestiary filter of `extract_fishing_stats`
(src/fishing/hypixel_api.py:219-222): keep keys whose lowercase form
contains "sea", "shark" or "squid". -/
def seaCreatureKey (k : String) : Bool :=
  strContainsSub (strLower k) "sea" || strContainsSub (strLower k) "shark" ||
    strContainsSub (strLower k) "squid"

/-- Model of `HypixelAPIClient.extract_fishing_stats`
(src/fishing/hypixel_api.py:182-240), with Python's possible runtime
errors made explicit in the `Except` monad. -/
def extract_fishing_stats (profile : Json) (uuid : String) : Except PyErr FishingStats := do
  let uuidClean := stripHyphens uuid
  let members ← dictGet profile "members" (.obj [])
  let member ← dictGet members uuidClean (.obj [])
  let fishingXp ← resolveFishingXp member
  let fishingLevel ← xpToLevelJson fishingXp
  let trophyFish ← dictGet member "trophy_fish" (.obj [])
  let bestiaryBox ← dictGet member "bestiary" (.obj [])
  let bestiary ← dictGet bestiaryBox "kills" (.obj [])
  let kills ← pyItems bestiary
  let seaCreatureKills := Json.obj (kills.filter (fun kv => seaCreatureKey kv.1))
  let inventory ← dictGet member "inventory" (.obj [])
  let equipBox ← dictGet inventory "equipment_contents" (.obj [])
  let equipment ← dictGet equipBox "data" (.arr [])
  let wardrobeBox ← dictGet inventory "wardrobe_contents" (.obj [])
  let wardrobe ← dictGet wardrobeBox "data" (.arr [])
  let profileId ← dictGet profile "profile_id" .null
  let cuteName ← dictGet profile "cute_name" .null
  let members' ← dictGet profile "members" (.obj [])
  let member' ← dictGet members' uuidClean (.obj [])
  let lastSave ← dictGet member' "last_save" (.num 0)
  pure {
    fishing_level := fishingLevel
    fishing_xp := fishingXp
    trophy_fish := trophyFish
    sea_creature_kills := seaCreatureKills
    equipment := equipment
    wardrobe := wardrobe
    profile_id := profileId
    cute_name := cuteName
    last_save := lastSave }

/-! ## Gear arithmetic (`src/fishing/calculators.py`) -/

/-- Round-half-to-even on a rational, the tie-breaking rule of Python 3's
built-in `round`. -/
def roundHalfEven (q : ℚ) : ℤ :=
  let f := ⌊q⌋
  let r := q - f
  if r < 1/2 then f
  else if 1/2 < r then f + 1
  else if f % 2 = 0 then f else f + 1

/-- Python `round(q, 2)`: round to two decimal places. -/
def pyRound2 (q : ℚ) : ℚ := (roundHalfEven (q * 100) : ℚ) / 100

/-- Truthiness of the optional `set_bonuses` dict argument (`None` and the
empty dict are falsy). -/
def pyDictTruthy (d : Option (List (String × ℚ))) : Bool :=
  match d with
  | none => false
  | some l => !l.isEmpty

/-- First-match lookup with default on a numeric association list. -/
def pyListGetQ : List (String × ℚ) → String → ℚ → ℚ
  | [], _, dflt => dflt
  | (k', v) :: t, k, dflt => if k' = k then v else pyListGetQ t k dflt

/-- Python `set_bonuses.get(k, dflt)` on the numeric bonus dict. -/
def pyDictGetQ (d : Option (List (String × ℚ))) (k : String) (dflt : ℚ) : ℚ :=
  match d with
  | none => dflt
  | some l => pyListGetQ l k dflt

/-- Model of `calculate_scc` (src/fishing/calculators.py:8-49). -/
def calculate_scc (base_scc rod_scc armor_scc pet_scc equipment_scc accessory_scc
    bait_scc : ℚ) (set_bonuses : Option (List (String × ℚ))) : ℚ :=
  let total := base_scc + rod_scc + armor_scc + pet_scc + equipment_scc +
    accessory_scc + bait_scc
  let total' :=
    if pyDictTruthy set_bonuses then
      let flat_bonus := pyDictGetQ set_bonuses "scc_flat" 0
      let multiplier := pyDictGetQ set_bonuses "scc_multiplier" 1
      (total + flat_bonus) * multiplier
    else total
  pyRound2 total'

/-- Model of `calculate_fishing_speed` (src/fishing/calculators.py:52-93). -/
def calculate_fishing_speed (base_fs rod_fs armor_fs pet_fs equipment_fs accessory_fs
    bait_fs : ℚ) (set_bonuses : Option (List (String × ℚ))) : ℚ :=
  let total := base_fs + rod_fs + armor_fs + pet_fs + equipment_fs +
    accessory_fs + bait_fs
  let total' :=
    if pyDictTruthy set_bonuses then
      let flat_bonus := pyDictGetQ set_bonuses "fs_flat" 0
      let multiplier := pyDictGetQ set_bonuses "fs_multiplier" 1
      (total + flat_bonus) * multiplier
    else total
  pyRound2 total'

/-- Modelled from the spec: `combine(baseContributions, setBonuses)` of
§4.5 — `round((sum(baseContributions) + (flat ?? 0)) * (multiplier ?? 1.0),
2 decimal places)`. -/
def combineSpec (contribs : List ℚ) (flat multiplier : Option ℚ) : ℚ :=
  pyRound2 ((contribs.sum + flat.getD 0) * multiplier.getD 1)

/-! ## Trophy-fish breakdown (`src/fishing/stats_calculator.py`) -/

/-- Python `isinstance(count, (int, float))`; note that Python `bool` is a
subtype of `int`. -/
def pyIsNumber : Json → Bool
  | .num _ => true
  | .bool _ => true
  | _ => false

/-- Python `int(count)` on a value known to satisfy `pyIsNumber`. -/
def pyIntOfNumber : Json → Int
  | .num q => pyInt q
  | .bool b => if b then 1 else 0
  | _ => 0

/-- Split a character list at its LAST `'_'`: `some (before, after)`, or
`none` when no underscore occurs. -/
def breakAtLastUnderscore : List Char → Option (List Char × List Char)
  | [] => none
  | c :: cs =>
    match breakAtLastUnderscore cs with
    | some (a, b) => some (c :: a, b)
    | none => if c = '_' then some ([], cs) else none

/-- Python `fish_key.rsplit('_', 1)` restricted to the two-part case:
`some (fish_name, tier)` when the key contains an underscore. -/
def rsplitUnderscore (s : String) : Option (String × String) :=
  match breakAtLastUnderscore s.data with
  | some (a, b) => some (⟨a⟩, ⟨b⟩)
  | none => none

/-- The fixed `by_tier` dict of `calculate_trophy_fish_stats`. -/
structure TierCounts where
  bronze : Int
  silver : Int
  gold : Int
  diamond : Int
deriving Repr, DecidableEq

/-- A `by_fish` entry: `{'total': ..., 'tiers': {...}}`. -/
structure FishEntry where
  total : Int
  tiers : List (String × Int)
deriving Repr, DecidableEq

/-- The result dict of `calculate_trophy_fish_stats`. -/
structure TrophyStats where
  total_caught : Int
  by_tier : TierCounts
  by_fish : List (String × FishEntry)
deriving Repr, DecidableEq

/-- The four known trophy-fish tiers (the keys of `by_tier`). -/
def tierNames : List String := ["bronze", "silver", "gold", "diamond"]

/-- The update `stats['by_tier'][tier] += n` for a valid tier name. -/
def addTier (tc : TierCounts) (tier : String) (n : Int) : TierCounts :=
  if tier = "bronze" then { tc with bronze := tc.bronze + n }
  else if tier = "silver" then { tc with silver := tc.silver + n }
  else if tier = "gold" then { tc with gold := tc.gold + n }
  else if tier = "diamond" then { tc with diamond := tc.diamond + n }
  else tc

/-- Python dict assignment `d[k] = v` on an insertion-ordered dict:
overwrite in place, or append a fresh key at the end. -/
def setAssoc (l : List (String × Int)) (k : String) (v : Int) : List (String × Int) :=
  match l with
  | [] => [(k, v)]
  | (k', v') :: t => if k' = k then (k, v) :: t else (k', v') :: setAssoc t k v

/-- The `by_fish` update of `calculate_trophy_fish_stats`
(src/fishing/stats_calculator.py:76-80): create the entry on first sight,
then `total += n` and `tiers[tier] = n`. -/
def updateByFish (l : List (String × FishEntry)) (name tier : String) (n : Int) :
    List (String × FishEntry) :=
  match l with
  | [] => [(name, { total := n, tiers := [(tier, n)] })]
  | (k, e) :: t =>
    if k = name then (k, { total := e.total + n, tiers := setAssoc e.tiers tier n }) :: t
    else (k, e) :: updateByFish t name tier n

/-- One iteration of the `for fish_key, count in trophy_fish.items()` loop
of `calculate_trophy_fish_stats` (src/fishing/stats_calculator.py:63-80). -/
def trophyStep (st : TrophyStats) (kv : String × Json) : TrophyStats :=
  if pyIsNumber kv.2 then
    match rsplitUnderscore kv.1 with
    | some (fish_name, tier) =>
      if tier ∈ tierNames then
        let n := pyIntOfNumber kv.2
        { total_caught := st.total_caught + n
          by_tier := addTier st.by_tier tier n
          by_fish := updateByFish st.by_fish fish_name tier n }
      else st
    | none => st
  else st

/-- Model of `FishingStatsCalculator.calculate_trophy_fish_stats`
(src/fishing/stats_calculator.py:47-82). -/
def calculate_trophy_fish_stats (trophy_fish : List (String × Json)) : TrophyStats :=
  trophy_fish.foldl trophyStep
    { total_caught := 0, by_tier := ⟨0, 0, 0, 0⟩, by_fish := [] }

/-! ## The HTTP client (`HypixelAPIClient._get`) -/

/-- What one network attempt inside `_get` can observe: a timeout, a
connection-level error, or an HTTP response with a status code and a
parsed body (`success` flag and optional `cause`). -/
inductive AttemptOutcome where
  | timeout
  | netError
  | response (status : ℕ) (success : Bool) (cause : Option String)
deriving Repr

/-- The exceptions `_get` can raise: the classified API errors of
src/fishing/hypixel_api.py:13-25, plus the raw transient httpx errors that
the code re-raises. -/
inductive ApiError where
  | playerNotFoundError
  | rateLimitError
  | hypixelAPIError (msg : String)
  | timeoutException
  | networkError
deriving Repr, DecidableEq

/-- The parsed body returned on success. -/
structure ApiData where
  success : Bool
  cause : Option String
deriving Repr, DecidableEq

/-- One execution of the body of `_get`
(src/fishing/hypixel_api.py:83-110): status classification (404, 429,
≥500), `raise_for_status` for the remaining non-2xx statuses (caught and
wrapped), the `success` flag check, and re-raising of transient errors. -/
def singleAttempt : AttemptOutcome → Except ApiError ApiData
  | .timeout => .error .timeoutException
  | .netError => .error .networkError
  | .response status success cause =>
    if status = 404 then .error .playerNotFoundError
    else if status = 429 then .error .rateLimitError
    else if 500 ≤ status then .error (.hypixelAPIError ("Server error: " ++ toString status))
    else if status < 200 ∨ 300 ≤ status then
      .error (.hypixelAPIError ("HTTP error: " ++ toString status))
    else if success = false then
      .error (.hypixelAPIError ("API returned success=false: " ++ cause.getD "Unknown error"))
    else .ok ⟨success, cause⟩

/-- Is this exception in the retry set
`retry_if_exception_type((httpx.TimeoutException, httpx.NetworkError))`? -/
def isTransient : ApiError → Bool
  | .timeoutException => true
  | .networkError => true
  | _ => false

/-- The tenacity retry loop around `_get` with `fuel` remaining retries:
retry transient errors while fuel remains; with `reraise=True`, the last
raw exception is re-raised on exhaustion. -/
def retryGo (out : ℕ → AttemptOutcome) : ℕ → ℕ → Except ApiError ApiData
  | i, 0 => singleAttempt (out i)
  | i, fuel + 1 =>
    match singleAttempt (out i) with
    | .ok d => .ok d
    | .error e => if isTransient e then retryGo out (i + 1) fuel else .error e

/-- The decorated `_get` (src/fishing/hypixel_api.py:56-110):
`stop_after_attempt(3)` means one initial attempt plus at most two
retries. -/
def hypixelGet (out : ℕ → AttemptOutcome) : Except ApiError ApiData :=
  retryGo out 0 2

/-- How many attempts the retry loop makes on the outcome stream `out`,
with `fuel` remaining retries. -/
def attemptsGo (out : ℕ → AttemptOutcome) : ℕ → ℕ → ℕ
  | i, 0 => i + 1
  | i, fuel + 1 =>
    match singleAttempt (out i) with
    | .ok _ => i + 1
    | .error e => if isTransient e then attemptsGo out (i + 1) fuel else i + 1

/-- Total number of attempts `_get` makes on the outcome stream `out`. -/
def attemptsUsed (out : ℕ → AttemptOutcome) : ℕ := attemptsGo out 0 2

/-- tenacity's `wait_exponential(multiplier, min, max)` with base 2:
`max(max(0, lo), min(multiplier * 2 ** attemptNumber, hi))`. -/
def waitExponential (multiplier lo hi : ℚ) (attemptNumber : ℕ) : ℚ :=
  max (max 0 lo) (min (multiplier * 2 ^ attemptNumber) hi)

/-- The configured backoff of `_get`:
`wait_exponential(multiplier=1, min=2, max=10)`. -/
def retryWait (attemptNumber : ℕ) : ℚ := waitExponential 1 2 10 attemptNumber

/-- The sleeps performed during one run of `_get`: one wait after each
failed attempt except the last. -/
def waitsPerformed (out : ℕ → AttemptOutcome) : List ℚ :=
  (List.range (attemptsUsed out - 1)).map (fun k => retryWait (k + 1))

/-- Is the outcome a transient network failure (an httpx timeout or
connection-level error)? -/
def transientOutcome : AttemptOutcome → Bool
  | .timeout => true
  | .netError => true
  | .response _ _ _ => false

/-! ## Concrete payloads used in the theorems -/

/-- The `FishingStats` record of all safe defaults: level 0, XP 0, empty
mappings, empty inventory blobs, absent display identifiers. -/
def emptyFishingStats : FishingStats :=
  { fishing_level := 0, fishing_xp := .num 0, trophy_fish := .obj [],
    sea_creature_kills := .obj [], equipment := .arr [], wardrobe := .arr [],
    profile_id := .null, cute_name := .null, last_save := .num 0 }

/-- The spec's distinguished payload: `player_data.experience.SKILL_FISHING
= 100` together with `experience_skill_fishing = 999`. -/
def profileBothPaths : Json :=
  .obj [("members", .obj [("u", .obj [
    ("player_data", .obj [("experience", .obj [("SKILL_FISHING", .num 100)])]),
    ("experience_skill_fishing", .num 999)])])]

/-- A payload carrying fishing XP under BOTH nested schema paths:
`leveling.experience.SKILL_FISHING = 100` and
`player_data.experience.SKILL_FISHING = 999`. -/
def profileBothNested : Json :=
  .obj [("members", .obj [("u", .obj [
    ("leveling", .obj [("experience", .obj [("SKILL_FISHING", .num 100)])]),
    ("player_data", .obj [("experience", .obj [("SKILL_FISHING", .num 999)])])])])]

/-- A member object carrying the three candidate XP locations, each
optionally: `leveling.experience.SKILL_FISHING`,
`player_data.experience.SKILL_FISHING`, `experience_skill_fishing`. -/
def mkMember3 (l p f : Option ℚ) : Json :=
  Json.obj
    ((match l with
      | some q => [("leveling", Json.obj [("experience", Json.obj [("SKILL_FISHING", Json.num q)])])]
      | none => []) ++
     (match p with
      | some q => [("player_data", Json.obj [("experience", Json.obj [("SKILL_FISHING", Json.num q)])])]
      | none => []) ++
     (match f with
      | some q => [("experience_skill_fishing", Json.num q)]
      | none => []))

/-! ## Theorems -/

section Theorems

/-- Success of a bind in the `Except` monad decomposes into successes of
both stages. -/
lemma bindExcept_ok {ε α β : Type} {x : Except ε α} {f : α → Except ε β} {b : β} :
    (x >>= f) = Except.ok b ↔ ∃ a, x = Except.ok a ∧ f a = Except.ok b := by
  cases x <;> simp [Bind.bind, Except.bind]

/-- In the `Except` monad, `pure` is `Except.ok`. -/
lemma pureExcept_ok {ε α : Type} {a b : α} :
    (pure a : Except ε α) = Except.ok b ↔ a = b := by
  simp [pure, Except.pure]

/-- Binding a success just applies the continuation. -/
lemma bindOkLeft {ε α β : Type} (x : α) (f : α → Except ε β) :
    ((Except.ok x : Except ε α) >>= f) = f x := rfl

/-- In the `Except` monad, `pure` is `Except.ok`, as an equation. -/
lemma pureExceptEq {ε α : Type} (x : α) : (pure x : Except ε α) = Except.ok x := rfl

/-- On a nonnegative rational, Python truncation is the floor. -/
lemma pyInt_eq_floor {q : ℚ} (h : 0 ≤ q) : pyInt q = ⌊q⌋ := if_pos h

/-- In the fallback branch (`xp < 27625`, `xp ≥ 0`), the level is at most 5. -/
lemma floor_div_le_five {x : ℚ} (h27 : x < 27625) : ⌊x / 5000⌋ ≤ 5 := by
  have h6 : x / 5000 < 6 := by
    rw [div_lt_iff (by norm_num : (0 : ℚ) < 5000)]
    linarith
  have := Int.floor_lt.mpr (by push_cast; exact h6 : x / 5000 < ((6 : ℤ) : ℚ))
  omega

unseal Rat.add Rat.sub Rat.mul Rat.inv Rat.ofScientific in
/-- C2 counterexample: `_xp_to_level(-10000)` is `-2`, not `0`, although
`-10000 < 0` — the claimed clamp of negative XP to level 0 fails. -/
theorem c2_counterexample :
    xpToLevel (-10000) = -2 ∧ ((-10000 : ℚ) < 0 ∧ (-2 : ℤ) ≠ 0) := by
  refine ⟨by decide, by norm_num, by decide⟩

/-- C2 (amended): `_xp_to_level` is a total function on the rationals, and
a negative `xp` is mapped to level 0 only in the range `-5000 < xp < 0`;
for `xp ≤ -5000` the result `int(xp / 5000)` is strictly negative. -/
theorem c2_amended :
    ∀ xp : ℚ, (-5000 < xp → xp < 0 → xpToLevel xp = 0) ∧
      (xp ≤ -5000 → xpToLevel xp < 0) := by
  intro xp
  constructor
  · intro h1 h2
    unfold xpToLevel pyInt
    have hneg : xp / 5000 < 0 := div_neg_of_neg_of_pos h2 (by norm_num)
    rw [if_neg (by linarith), if_neg (by linarith), if_neg (by linarith),
      if_neg (by linarith), if_neg (by linarith), if_neg (by linarith),
      if_neg (by linarith), if_neg (by linarith), if_neg (by linarith),
      if_neg (by linarith), if_neg (by linarith)]
    rw [Int.ceil_eq_zero_iff]
    constructor
    · show (-1 : ℚ) < xp / 5000
      rw [lt_div_iff (by norm_num : (0 : ℚ) < 5000)]
      linarith
    · exact le_of_lt hneg
  · intro h
    have hle : xp / 5000 ≤ -1 := by
      rw [div_le_iff (by norm_num : (0 : ℚ) < 5000)]
      linarith
    have hneg : xp / 5000 < 0 := lt_of_le_of_lt hle (by norm_num)
    unfold xpToLevel pyInt
    rw [if_neg (by linarith), if_neg (by linarith), if_neg (by linarith),
      if_neg (by linarith), if_neg (by linarith), if_neg (by linarith),
      if_neg (by linarith), if_neg (by linarith), if_neg (by linarith),
      if_neg (by linarith), if_neg (by linarith)]
    have := Int.ceil_le.mpr (by push_cast; exact hle : xp / 5000 ≤ ((-1 : ℤ) : ℚ))
    omega

/-- C2 amended, instantiated: `-1` is clamped to 0, `-6000` is negative. -/
theorem c2_amended_witness : xpToLevel (-1) = 0 ∧ xpToLevel (-6000) < 0 :=
  ⟨(c2_amended (-1)).1 (by norm_num) (by norm_num),
   (c2_amended (-6000)).2 (by norm_num)⟩

/-- Below all thresholds the resolver is the truncated division. -/
lemma xpToLevel_eq_floor {x : ℚ} (h0 : 0 ≤ x) (h : x < 27625) :
    xpToLevel x = ⌊x / 5000⌋ := by
  unfold xpToLevel pyInt
  rw [if_neg (by linarith), if_neg (by linarith), if_neg (by linarith),
    if_neg (by linarith), if_neg (by linarith), if_neg (by linarith),
    if_neg (by linarith), if_neg (by linarith), if_neg (by linarith),
    if_neg (by linarith), if_pos (div_nonneg h0 (by norm_num))]

/-- Threshold branch for level 5. -/
lemma xpToLevel_eq_5 {x : ℚ} (h1 : 27625 ≤ x) (h2 : x < 87625) :
    xpToLevel x = 5 := by
  unfold xpToLevel
  rw [if_neg (by linarith), if_neg (by linarith), if_neg (by linarith),
    if_neg (by linarith), if_neg (by linarith), if_neg (by linarith),
    if_neg (by linarith), if_neg (by linarith), if_neg (by linarith),
    if_pos h1]

/-- Threshold branch for level 10. -/
lemma xpToLevel_eq_10 {x : ℚ} (h1 : 87625 ≤ x) (h2 : x < 232625) :
    xpToLevel x = 10 := by
  unfold xpToLevel
  rw [if_neg (by linarith), if_neg (by linarith), if_neg (by linarith),
    if_neg (by linarith), if_neg (by linarith), if_neg (by linarith),
    if_neg (by linarith), if_neg (by linarith), if_pos h1]

/-- Threshold branch for level 15. -/
lemma xpToLevel_eq_15 {x : ℚ} (h1 : 232625 ≤ x) (h2 : x < 572625) :
    xpToLevel x = 15 := by
  unfold xpToLevel
  rw [if_neg (by linarith), if_neg (by linarith), if_neg (by linarith),
    if_neg (by linarith), if_neg (by linarith), if_neg (by linarith),
    if_neg (by linarith), if_pos h1]

/-- Threshold branch for level 20. -/
lemma xpToLevel_eq_20 {x : ℚ} (h1 : 572625 ≤ x) (h2 : x < 1332625) :
    xpToLevel x = 20 := by
  unfold xpToLevel
  rw [if_neg (by linarith), if_neg (by linarith), if_neg (by linarith),
    if_neg (by linarith), if_neg (by linarith), if_neg (by linarith),
    if_pos h1]

/-- Threshold branch for level 25. -/
lemma xpToLevel_eq_25 {x : ℚ} (h1 : 1332625 ≤ x) (h2 : x < 2982625) :
    xpToLevel x = 25 := by
  unfold xpToLevel
  rw [if_neg (by linarith), if_neg (by linarith), if_neg (by linarith),
    if_neg (by linarith), if_neg (by linarith), if_pos h1]

/-- Threshold branch for level 30. -/
lemma xpToLevel_eq_30 {x : ℚ} (h1 : 2982625 ≤ x) (h2 : x < 6452625) :
    xpToLevel x = 30 := by
  unfold xpToLevel
  rw [if_neg (by linarith), if_neg (by linarith), if_neg (by linarith),
    if_neg (by linarith), if_pos h1]

/-- Threshold branch for level 35. -/
lemma xpToLevel_eq_35 {x : ℚ} (h1 : 6452625 ≤ x) (h2 : x < 13512625) :
    xpToLevel x = 35 := by
  unfold xpToLevel
  rw [if_neg (by linarith), if_neg (by linarith), if_neg (by linarith),
    if_pos h1]

/-- Threshold branch for level 40. -/
lemma xpToLevel_eq_40 {x : ℚ} (h1 : 13512625 ≤ x) (h2 : x < 27652625) :
    xpToLevel x = 40 := by
  unfold xpToLevel
  rw [if_neg (by linarith), if_neg (by linarith), if_pos h1]

/-- Threshold branch for level 45. -/
lemma xpToLevel_eq_45 {x : ℚ} (h1 : 27652625 ≤ x) (h2 : x < 55172425) :
    xpToLevel x = 45 := by
  unfold xpToLevel
  rw [if_neg (by linarith), if_pos h1]

/-- Threshold branch for level 50. -/
lemma xpToLevel_eq_50 {x : ℚ} (h1 : 55172425 ≤ x) : xpToLevel x = 50 := by
  unfold xpToLevel
  rw [if_pos h1]

/-- Upper bound below the level-10 threshold. -/
lemma xpToLevel_le_5 {x : ℚ} (h0 : 0 ≤ x) (h : x < 87625) : xpToLevel x ≤ 5 := by
  rcases lt_or_le x 27625 with h' | h'
  · rw [xpToLevel_eq_floor h0 h']
    exact floor_div_le_five h'
  · rw [xpToLevel_eq_5 h' h]

/-- Upper bound below the level-15 threshold. -/
lemma xpToLevel_le_10 {x : ℚ} (h0 : 0 ≤ x) (h : x < 232625) : xpToLevel x ≤ 10 := by
  rcases lt_or_le x 87625 with h' | h'
  · exact le_trans (xpToLevel_le_5 h0 h') (by norm_num)
  · rw [xpToLevel_eq_10 h' h]

/-- Upper bound below the level-20 threshold. -/
lemma xpToLevel_le_15 {x : ℚ} (h0 : 0 ≤ x) (h : x < 572625) : xpToLevel x ≤ 15 := by
  rcases lt_or_le x 232625 with h' | h'
  · exact le_trans (xpToLevel_le_10 h0 h') (by norm_num)
  · rw [xpToLevel_eq_15 h' h]

/-- Upper bound below the level-25 threshold. -/
lemma xpToLevel_le_20 {x : ℚ} (h0 : 0 ≤ x) (h : x < 1332625) : xpToLevel x ≤ 20 := by
  rcases lt_or_le x 572625 with h' | h'
  · exact le_trans (xpToLevel_le_15 h0 h') (by norm_num)
  · rw [xpToLevel_eq_20 h' h]

/-- Upper bound below the level-30 threshold. -/
lemma xpToLevel_le_25 {x : ℚ} (h0 : 0 ≤ x) (h : x < 2982625) : xpToLevel x ≤ 25 := by
  rcases lt_or_le x 1332625 with h' | h'
  · exact le_trans (xpToLevel_le_20 h0 h') (by norm_num)
  · rw [xpToLevel_eq_25 h' h]

/-- Upper bound below the level-35 threshold. -/
lemma xpToLevel_le_30 {x : ℚ} (h0 : 0 ≤ x) (h : x < 6452625) : xpToLevel x ≤ 30 := by
  rcases lt_or_le x 2982625 with h' | h'
  · exact le_trans (xpToLevel_le_25 h0 h') (by norm_num)
  · rw [xpToLevel_eq_30 h' h]

/-- Upper bound below the level-40 threshold. -/
lemma xpToLevel_le_35 {x : ℚ} (h0 : 0 ≤ x) (h : x < 13512625) : xpToLevel x ≤ 35 := by
  rcases lt_or_le x 6452625 with h' | h'
  · exact le_trans (xpToLevel_le_30 h0 h') (by norm_num)
  · rw [xpToLevel_eq_35 h' h]

/-- Upper bound below the level-45 threshold. -/
lemma xpToLevel_le_40 {x : ℚ} (h0 : 0 ≤ x) (h : x < 27652625) : xpToLevel x ≤ 40 := by
  rcases lt_or_le x 13512625 with h' | h'
  · exact le_trans (xpToLevel_le_35 h0 h') (by norm_num)
  · rw [xpToLevel_eq_40 h' h]

/-- Upper bound below the level-50 threshold. -/
lemma xpToLevel_le_45 {x : ℚ} (h0 : 0 ≤ x) (h : x < 55172425) : xpToLevel x ≤ 45 := by
  rcases lt_or_le x 27652625 with h' | h'
  · exact le_trans (xpToLevel_le_40 h0 h') (by norm_num)
  · rw [xpToLevel_eq_45 h' h]

/-- Global upper bound for nonnegative XP. -/
lemma xpToLevel_le_50 {x : ℚ} (h0 : 0 ≤ x) : xpToLevel x ≤ 50 := by
  rcases lt_or_le x 55172425 with h' | h'
  · exact le_trans (xpToLevel_le_45 h0 h') (by norm_num)
  · rw [xpToLevel_eq_50 h']

/-- Monotonicity of the level resolver on nonnegative XP. -/
lemma xpToLevel_mono {x y : ℚ} (hx : 0 ≤ x) (hxy : x ≤ y) :
    xpToLevel x ≤ xpToLevel y := by
  have hy : (0 : ℚ) ≤ y := hx.trans hxy
  rcases lt_or_le y 27625 with h | h
  · rw [xpToLevel_eq_floor hx (by linarith), xpToLevel_eq_floor hy h]
    exact Int.floor_le_floor (by gcongr)
  rcases lt_or_le y 87625 with h' | h'
  · rw [xpToLevel_eq_5 h h']
    exact xpToLevel_le_5 hx (by linarith)
  rcases lt_or_le y 232625 with h'' | h''
  · rw [xpToLevel_eq_10 h' h'']
    exact xpToLevel_le_10 hx (by linarith)
  rcases lt_or_le y 572625 with h3 | h3
  · rw [xpToLevel_eq_15 h'' h3]
    exact xpToLevel_le_15 hx (by linarith)
  rcases lt_or_le y 1332625 with h4 | h4
  · rw [xpToLevel_eq_20 h3 h4]
    exact xpToLevel_le_20 hx (by linarith)
  rcases lt_or_le y 2982625 with h5 | h5
  · rw [xpToLevel_eq_25 h4 h5]
    exact xpToLevel_le_25 hx (by linarith)
  rcases lt_or_le y 6452625 with h6 | h6
  · rw [xpToLevel_eq_30 h5 h6]
    exact xpToLevel_le_30 hx (by linarith)
  rcases lt_or_le y 13512625 with h7 | h7
  · rw [xpToLevel_eq_35 h6 h7]
    exact xpToLevel_le_35 hx (by linarith)
  rcases lt_or_le y 27652625 with h8 | h8
  · rw [xpToLevel_eq_40 h7 h8]
    exact xpToLevel_le_40 hx (by linarith)
  rcases lt_or_le y 55172425 with h9 | h9
  · rw [xpToLevel_eq_45 h8 h9]
    exact xpToLevel_le_45 hx (by linarith)
  · rw [xpToLevel_eq_50 h9]
    exact xpToLevel_le_50 hx

unseal Rat.add Rat.sub Rat.mul Rat.inv Rat.ofScientific in
/-- The resolver maps 0 XP to level 0. -/
lemma xpToLevel_zero : xpToLevel 0 = 0 := by decide

/-- C9: on nonnegative XP the level resolver is monotonically
non-decreasing and bounded to `[0, 50]`; it maps 0 to 0 and everything at
or above the top threshold to 50. -/
theorem c9_level_monotone_bounded :
    (∀ x y : ℚ, 0 ≤ x → x ≤ y → xpToLevel x ≤ xpToLevel y) ∧
      (∀ x : ℚ, 0 ≤ x → 0 ≤ xpToLevel x ∧ xpToLevel x ≤ 50) ∧
      xpToLevel 0 = 0 ∧ (∀ x : ℚ, 55172425 ≤ x → xpToLevel x = 50) := by
  refine ⟨fun x y hx hxy => xpToLevel_mono hx hxy, ?_, xpToLevel_zero,
    fun x h => xpToLevel_eq_50 h⟩
  intro x hx
  constructor
  · have := xpToLevel_mono (le_refl (0 : ℚ)) hx
    rwa [xpToLevel_zero] at this
  · exact xpToLevel_le_50 hx

/-- C9, instantiated: monotone between 3 and 7, bounded at 3, huge XP is
level 50. -/
theorem c9_witness :
    xpToLevel 3 ≤ xpToLevel 7 ∧ (0 ≤ xpToLevel 3 ∧ xpToLevel 3 ≤ 50) ∧
      xpToLevel 60000000 = 50 :=
  ⟨c9_level_monotone_bounded.1 3 7 (by norm_num) (by norm_num),
   c9_level_monotone_bounded.2.1 3 (by norm_num),
   c9_level_monotone_bounded.2.2.2 60000000 (by norm_num)⟩

/-- C6: whenever extraction returns a record, the stored `fishing_level`
is exactly the level resolver applied to the stored `fishing_xp`. -/
theorem c6_level_consistent_with_xp :
    ∀ (p : Json) (u : String) (s : FishingStats),
      extract_fishing_stats p u = .ok s →
        xpToLevelJson s.fishing_xp = .ok s.fishing_level := by
  intro p u s h
  simp only [extract_fishing_stats, bindExcept_ok, pureExcept_ok] at h
  obtain ⟨members, hm, h⟩ := h
  obtain ⟨member, hmem, h⟩ := h
  obtain ⟨xp, hxp, h⟩ := h
  obtain ⟨lvl, hlvl, h⟩ := h
  obtain ⟨t, ht, h⟩ := h
  obtain ⟨bb, hbb, h⟩ := h
  obtain ⟨bk, hbk, h⟩ := h
  obtain ⟨ks, hks, h⟩ := h
  obtain ⟨inv, hinv, h⟩ := h
  obtain ⟨eb, heb, h⟩ := h
  obtain ⟨eqv, heqv, h⟩ := h
  obtain ⟨wb, hwb, h⟩ := h
  obtain ⟨wd, hwd, h⟩ := h
  obtain ⟨pid, hpid, h⟩ := h
  obtain ⟨cn, hcn, h⟩ := h
  obtain ⟨ms2, hms2, h⟩ := h
  obtain ⟨m2, hm2, h⟩ := h
  obtain ⟨ls, hls, hrec⟩ := h
  subst hrec
  exact hlvl

unseal Rat.add Rat.sub Rat.mul Rat.inv Rat.ofScientific in
/-- C6, instantiated at the empty profile. -/
theorem c6_witness :
    xpToLevelJson emptyFishingStats.fishing_xp = .ok emptyFishingStats.fishing_level :=
  c6_level_consistent_with_xp (.obj []) "u" emptyFishingStats rfl

/-- C5 counterexample: extraction is NOT total on arbitrarily-typed
payloads — a profile whose `members` field holds the number 5 makes
`profile.get('members', {}).get(uuid, {})` raise `AttributeError`. -/
theorem c5_counterexample :
    extract_fishing_stats (.obj [("members", .num 5)]) "u" = .error .attributeError :=
  rfl

unseal Rat.add Rat.sub Rat.mul Rat.inv Rat.ofScientific in
/-- C5 (amended): extraction substitutes safe defaults for missing fields
— on a fully empty profile and on a completely empty member object it
returns `fishing_xp = 0`, `fishing_level = 0` and empty mappings — but a
wrongly-typed field can still make it raise. -/
theorem c5_amended :
    ∀ u : String,
      extract_fishing_stats (.obj []) u = .ok emptyFishingStats ∧
        extract_fishing_stats (.obj [("members", .obj [("u", .obj [])])]) "u" =
          .ok emptyFishingStats :=
  fun _ => ⟨rfl, rfl⟩

unseal Rat.add Rat.sub Rat.mul Rat.inv Rat.ofScientific in
/-- C1 counterexample: on a payload carrying fishing XP under both nested
paths, the code returns the `leveling` value (100), while the claimed
priority order (`player_data` first) demands 999. -/
theorem c1_counterexample :
    (extract_fishing_stats profileBothNested "u").map FishingStats.fishing_xp =
        .ok (.num 100) ∧ Json.num 100 ≠ Json.num 999 :=
  ⟨rfl, fun hcon => (by norm_num : (100 : ℚ) ≠ 999) (Json.num.inj hcon)⟩

unseal Rat.add Rat.sub Rat.mul Rat.inv Rat.ofScientific in
/-- C1 (amended): the extractor resolves fishing XP by trying
`leveling.experience.SKILL_FISHING` first, then
`player_data.experience.SKILL_FISHING`, then `experience_skill_fishing`,
moving on whenever the value found so far is falsy (zero or missing), and
defaulting to 0; the spec's distinguished payload (`player_data` = 100
plus flat key = 999, no `leveling`) still yields 100. -/
theorem c1_amended :
    ∀ a b c : ℚ,
      resolveFishingXp (mkMember3 (some a) (some b) (some c)) =
          .ok (.num (if a ≠ 0 then a else if b ≠ 0 then b else c)) ∧
        resolveFishingXp (mkMember3 none (some b) (some c)) =
          .ok (.num (if b ≠ 0 then b else c)) ∧
        resolveFishingXp (mkMember3 none none (some c)) = .ok (.num c) ∧
        resolveFishingXp (mkMember3 none none none) = .ok (.num 0) ∧
        (extract_fishing_stats profileBothPaths "u").map FishingStats.fishing_xp =
          .ok (.num 100) := by
  intro a b c
  refine ⟨?_, ?_, ?_, ?_, rfl⟩
  · by_cases ha : a = 0 <;> by_cases hb : b = 0 <;>
      simp [resolveFishingXp, mkMember3, pyContains, pySubscript, dictGet,
        lookupKey, pyTruthy, bindOkLeft, pureExceptEq, ha, hb]
  · by_cases hb : b = 0 <;>
      simp [resolveFishingXp, mkMember3, pyContains, pySubscript, dictGet,
        lookupKey, pyTruthy, bindOkLeft, pureExceptEq, hb]
  · simp [resolveFishingXp, mkMember3, pyContains, pySubscript, dictGet,
      lookupKey, pyTruthy, bindOkLeft, pureExceptEq]
  · simp [resolveFishingXp, mkMember3, pyContains, pySubscript, dictGet,
      lookupKey, pyTruthy, bindOkLeft, pureExceptEq]

/-- A loop iteration that skips leaves the accumulator unchanged:
non-numeric value. -/
lemma trophyStep_skip_nonnumeric {k : String} {v : Json} (h : pyIsNumber v = false)
    (st : TrophyStats) : trophyStep st (k, v) = st := by
  simp [trophyStep, h]

/-- A loop iteration that skips leaves the accumulator unchanged: key
without an underscore. -/
lemma trophyStep_skip_unsplit {k : String} {v : Json}
    (h : rsplitUnderscore k = none) (st : TrophyStats) : trophyStep st (k, v) = st := by
  by_cases hn : pyIsNumber v <;> simp [trophyStep, h, hn]

/-- A loop iteration that skips leaves the accumulator unchanged: unknown
tier name. -/
lemma trophyStep_skip_badtier {k fn t : String} {v : Json}
    (h : rsplitUnderscore k = some (fn, t)) (ht : t ∉ tierNames)
    (st : TrophyStats) : trophyStep st (k, v) = st := by
  by_cases hn : pyIsNumber v <;> simp [trophyStep, h, hn, ht]

/-- A skipped entry anywhere in the input leaves the whole breakdown
unchanged. -/
lemma calculate_trophy_skip {l1 l2 : List (String × Json)} {k : String} {v : Json}
    (hstep : ∀ st, trophyStep st (k, v) = st) :
    calculate_trophy_fish_stats (l1 ++ (k, v) :: l2) =
      calculate_trophy_fish_stats (l1 ++ l2) := by
  unfold calculate_trophy_fish_stats
  rw [List.foldl_append, List.foldl_append, List.foldl_cons, hstep]

unseal Rat.add Rat.sub Rat.mul Rat.inv Rat.ofScientific in
/-- C7: the trophy-fish breakdown silently skips entries with non-numeric
values, keys without an underscore, and keys whose last segment is not a
known tier; and on `{"golden_fish_diamond": 3, "junk_key": "x"}` it yields
3 total, 3 diamond-tier, and one `golden_fish` entry with 3 diamond. -/
theorem c7_trophy_breakdown :
    ∀ (l1 l2 : List (String × Json)) (k : String) (v : Json),
      (pyIsNumber v = false →
        calculate_trophy_fish_stats (l1 ++ (k, v) :: l2) =
          calculate_trophy_fish_stats (l1 ++ l2)) ∧
      (rsplitUnderscore k = none →
        calculate_trophy_fish_stats (l1 ++ (k, v) :: l2) =
          calculate_trophy_fish_stats (l1 ++ l2)) ∧
      (∀ fn t : String, rsplitUnderscore k = some (fn, t) → t ∉ tierNames →
        calculate_trophy_fish_stats (l1 ++ (k, v) :: l2) =
          calculate_trophy_fish_stats (l1 ++ l2)) ∧
      calculate_trophy_fish_stats
          [("golden_fish_diamond", .num 3), ("junk_key", .str "x")] =
        { total_caught := 3, by_tier := ⟨0, 0, 0, 3⟩,
          by_fish := [("golden_fish", { total := 3, tiers := [("diamond", 3)] })] } := by
  intro l1 l2 k v
  refine ⟨fun h => calculate_trophy_skip (trophyStep_skip_nonnumeric h),
    fun h => calculate_trophy_skip (trophyStep_skip_unsplit h),
    fun fn t h ht => calculate_trophy_skip (trophyStep_skip_badtier h ht), ?_⟩
  decide

/-- C7, instantiated: a non-numeric entry is dropped from a singleton
input. -/
theorem c7_witness :
    calculate_trophy_fish_stats [("a_bronze", .str "x")] =
      calculate_trophy_fish_stats [] :=
  (c7_trophy_breakdown [] [] "a_bronze" (.str "x")).1 rfl

unseal Rat.add Rat.sub Rat.mul Rat.inv Rat.ofScientific in
/-- C8: both with and without a set-bonus record, `calculate_scc` computes
the spec's `combine` formula — sum of contributions, plus flat bonus
(default 0), times multiplier (default 1), rounded to two decimals — with
an absent or empty record acting as a no-op; including the spec's two
worked examples. -/
theorem c8_combine_formula :
    ∀ a b c d e f g fl mu : ℚ,
      calculate_scc a b c d e f g none = combineSpec [a, b, c, d, e, f, g] none none ∧
        calculate_scc a b c d e f g (some []) =
          combineSpec [a, b, c, d, e, f, g] none none ∧
        calculate_scc a b c d e f g (some [("scc_flat", fl), ("scc_multiplier", mu)]) =
          combineSpec [a, b, c, d, e, f, g] (some fl) (some mu) ∧
        calculate_scc 10 5 0 0 0 0 0 (some [("scc_flat", 5), ("scc_multiplier", 6/5)]) = 24 ∧
        calculate_scc 0 0 0 0 0 0 0 (some []) = 0 := by
  intro a b c d e f g fl mu
  have hk : ¬(("scc_flat" : String) = "scc_multiplier") := by decide
  refine ⟨?_, ?_, ?_, by decide, by decide⟩
  · simp only [calculate_scc, combineSpec, pyDictTruthy, pyDictGetQ, pyListGetQ, Option.getD,
      Bool.false_eq_true, if_false, List.sum_cons, List.sum_nil, add_zero, mul_one]
    congr 1
    ring
  · simp only [calculate_scc, combineSpec, pyDictTruthy, pyDictGetQ, pyListGetQ, Option.getD,
      List.isEmpty_nil, Bool.not_true, Bool.false_eq_true, if_false,
      List.sum_cons, List.sum_nil, add_zero, mul_one]
    congr 1
    ring
  · simp only [calculate_scc, combineSpec, pyDictTruthy, pyDictGetQ, pyListGetQ, Option.getD,
      List.isEmpty_cons, Bool.not_false, if_true, List.sum_cons, List.sum_nil,
      add_zero, hk, if_neg]
    norm_num [hk]
    congr 1
    ring

/-- C10: the Sea Creature Chance and Fishing Speed calculators implement
one and the same formula — on equal contributions and equal (or absent)
flat/multiplier bonuses under their respective key names, they agree. -/
theorem c10_scc_fs_same_formula :
    ∀ a b c d e f g fl mu : ℚ,
      calculate_scc a b c d e f g (some [("scc_flat", fl), ("scc_multiplier", mu)]) =
          calculate_fishing_speed a b c d e f g
            (some [("fs_flat", fl), ("fs_multiplier", mu)]) ∧
        calculate_scc a b c d e f g none = calculate_fishing_speed a b c d e f g none := by
  intro a b c d e f g fl mu
  constructor
  · simp [calculate_scc, calculate_fishing_speed, pyDictTruthy, pyDictGetQ, pyListGetQ]
  · simp [calculate_scc, calculate_fishing_speed, pyDictTruthy, pyDictGetQ, pyListGetQ]

/-- The retry loop never makes more attempts than one plus its fuel. -/
lemma attemptsGo_le (out : ℕ → AttemptOutcome) :
    ∀ (fuel i : ℕ), attemptsGo out i fuel ≤ i + fuel + 1 := by
  intro fuel
  induction fuel with
  | zero =>
    intro i
    simp [attemptsGo]
  | succ n ih =>
    intro i
    cases h : singleAttempt (out i) with
    | ok d => simp [attemptsGo, h]
    | error e =>
      by_cases ht : isTransient e
      · have := ih (i + 1)
        simp only [attemptsGo, h, ht, if_true]
        omega
      · simp [attemptsGo, h, ht]

/-- The retry loop always makes at least one attempt. -/
lemma attemptsGo_ge (out : ℕ → AttemptOutcome) :
    ∀ (fuel i : ℕ), i + 1 ≤ attemptsGo out i fuel := by
  intro fuel
  induction fuel with
  | zero =>
    intro i
    simp [attemptsGo]
  | succ n ih =>
    intro i
    cases h : singleAttempt (out i) with
    | ok d => simp [attemptsGo, h]
    | error e =>
      by_cases ht : isTransient e
      · have := ih (i + 1)
        simp [attemptsGo, h, ht]
        omega
      · simp [attemptsGo, h, ht]

/-- C3: `_get` classifies non-transient failures of the first attempt
immediately — 404 to `PlayerNotFoundError`, 429 to `RateLimitError`,
5xx and a false `success` flag to `HypixelAPIError` (the latter carrying
the upstream cause) — never retries a non-transient error, makes at most
3 attempts, and sleeps along the deterministic backoff prefix of `[2, 4]`
whose waits are bounded by `[2, 10]`, retrying transient failures up to
the attempt budget. -/
theorem c3_retry_and_classification :
    ∀ (out : ℕ → AttemptOutcome) (s : ℕ) (ok : Bool) (c : Option String),
      (out 0 = .response 404 ok c → hypixelGet out = .error .playerNotFoundError) ∧
      (out 0 = .response 429 ok c → hypixelGet out = .error .rateLimitError) ∧
      (500 ≤ s → out 0 = .response s ok c →
        hypixelGet out = .error (.hypixelAPIError ("Server error: " ++ toString s))) ∧
      (out 0 = .response 200 false c →
        hypixelGet out = .error (.hypixelAPIError
          ("API returned success=false: " ++ c.getD "Unknown error"))) ∧
      (∀ e : ApiError, singleAttempt (out 0) = .error e → isTransient e = false →
        hypixelGet out = .error e) ∧
      attemptsUsed out ≤ 3 ∧
      waitsPerformed out <+: [2, 4] ∧
      retryWait 1 = 2 ∧ (∀ n : ℕ, 2 ≤ retryWait n ∧ retryWait n ≤ 10) ∧
      (∀ d : ApiData, transientOutcome (out 0) = true → transientOutcome (out 1) = true →
        singleAttempt (out 2) = .ok d → hypixelGet out = .ok d) := by
  intro out s ok c
  refine ⟨?_, ?_, ?_, ?_, ?_, ?_, ?_, ?_, ?_, ?_⟩
  · intro h
    simp [hypixelGet, retryGo, h, singleAttempt, isTransient]
  · intro h
    simp [hypixelGet, retryGo, h, singleAttempt, isTransient]
  · intro hs h
    have h1 : s ≠ 404 := by omega
    have h2 : s ≠ 429 := by omega
    simp [hypixelGet, retryGo, h, singleAttempt, isTransient, h1, h2, hs]
  · intro h
    simp [hypixelGet, retryGo, h, singleAttempt, isTransient]
  · intro e he hnt
    simp [hypixelGet, retryGo, he, hnt]
  · exact attemptsGo_le out 2 0
  · have hge : 1 ≤ attemptsUsed out := attemptsGo_ge out 2 0
    have hle : attemptsUsed out ≤ 3 := attemptsGo_le out 2 0
    have h3 : attemptsUsed out = 1 ∨ attemptsUsed out = 2 ∨ attemptsUsed out = 3 := by
      omega
    rcases h3 with h | h | h <;> rw [waitsPerformed, h]
    · simp
    · have : retryWait 1 = 2 := by norm_num [retryWait, waitExponential]
      simp [List.range_succ, this]
    · have h1 : retryWait 1 = 2 := by norm_num [retryWait, waitExponential]
      have h2 : retryWait 2 = 4 := by norm_num [retryWait, waitExponential]
      simp [List.range_succ, h1, h2]
  · norm_num [retryWait, waitExponential]
  · intro n
    constructor
    · refine le_max_of_le_left ?_
      norm_num
    · refine max_le (by norm_num) (min_le_right _ _)
  · intro d h0 h1 h2
    have st : singleAttempt .timeout = .error .timeoutException := rfl
    have sn : singleAttempt .netError = .error .networkError := rfl
    cases ho0 : out 0 <;> rw [ho0] at h0 <;> try simp [transientOutcome] at h0
    all_goals cases ho1 : out 1 <;> rw [ho1] at h1 <;> try simp [transientOutcome] at h1
    all_goals simp [hypixelGet, retryGo, ho0, ho1, st, sn, h2, isTransient]

/-- C3, instantiated: a 404 on the first attempt raises the not-found
error at once, and the whole backoff table starts at 2. -/
theorem c3_witness :
    hypixelGet (fun _ => .response 404 true none) = .error .playerNotFoundError ∧
      retryWait 1 = 2 :=
  ⟨(c3_retry_and_classification (fun _ => .response 404 true none) 0 true none).1 rfl,
   (c3_retry_and_classification (fun _ => .response 404 true none) 0 true none).2.2.2.2.2.2.2.1⟩

/-- C4 counterexample: when every attempt times out, `_get` surfaces the
raw `httpx.TimeoutException` (tenacity `reraise=True`), not a
`HypixelAPIError`/UpstreamError. -/
theorem c4_counterexample :
    hypixelGet (fun _ => .timeout) = .error .timeoutException ∧
      (match hypixelGet (fun _ => .timeout) with
        | .error (.hypixelAPIError _) => true
        | _ => false) = false :=
  ⟨rfl, rfl⟩

/-- C4 (amended): when the first attempts all fail transiently, the third
attempt's own outcome is returned as-is — in particular three timeouts
surface the raw timeout error and three connection errors surface the raw
network error, with no re-wrapping as `HypixelAPIError`. -/
theorem c4_amended :
    ∀ out : ℕ → AttemptOutcome,
      transientOutcome (out 0) = true → transientOutcome (out 1) = true →
        hypixelGet out = singleAttempt (out 2) ∧
          (out 2 = .timeout → hypixelGet out = .error .timeoutException) ∧
          (out 2 = .netError → hypixelGet out = .error .networkError) := by
  intro out h0 h1
  have key : hypixelGet out = singleAttempt (out 2) := by
    have st : singleAttempt .timeout = .error .timeoutException := rfl
    have sn : singleAttempt .netError = .error .networkError := rfl
    cases ho0 : out 0 <;> rw [ho0] at h0 <;> try simp [transientOutcome] at h0
    all_goals cases ho1 : out 1 <;> rw [ho1] at h1 <;> try simp [transientOutcome] at h1
    all_goals simp [hypixelGet, retryGo, ho0, ho1, st, sn, isTransient]
  refine ⟨key, ?_, ?_⟩
  · intro h2
    rw [key, h2]
    rfl
  · intro h2
    rw [key, h2]
    rfl

/-- C4 amended, instantiated: three straight timeouts yield the raw
timeout error. -/
theorem c4_amended_witness :
    hypixelGet (fun _ => AttemptOutcome.timeout) = .error .timeoutException :=
  (c4_amended (fun _ => .timeout) rfl rfl).2.1 rfl

end Theorems

end SkySkills
